import Mathlib

/-!
# AkemiV2 — manga details page (`src/app/manga/[details]/page.jsx`)

A shallow embedding of the client component `MangaDetailsPage`:

* the three gateway helpers `fetchMangaDetails`, `fetchAuthorDetails`, `fetchChapters`;
* the effect body `fetchData`, run against an explicit screen state, the `library` slot of
  `localStorage` and a log of the network requests that were issued, both from start to end
  (`fetchData`) and cut at its `await`s (`resume`);
* the click handlers `addToLibrary` and `removeFromLibrary`, and the click on the save button;
* the part of the render that the properties below talk about (loading gate, creator line,
  poster, save button, chapter list with its `sort` comparator).

JavaScript built-ins used by the page (`fetch`, `JSON.parse`, `parseFloat`,
`Array.prototype.sort`) are not code of the repository; each is modelled by what the
language standard says it does, and the model is named in the doc comment of the definition.
-/

namespace Akemi

/-! ## JavaScript numbers -/

/-- The number values the chapter comparator can see.  Finite values carry their exact
rational value (every binary64 value is a rational); `-0` is not distinguished from `0`,
which is harmless here because both are falsy and compare equal. -/
inductive JSNum where
  | nan
  | negInf
  | fin (q : ℚ)
  | posInf
  deriving DecidableEq, Repr

namespace JSNum

/-- ToBoolean on a number: `NaN` and zero are falsy. -/
def truthy : JSNum → Bool
  | nan => false
  | fin q => decide (q ≠ 0)
  | _ => true

/-- The expression `x || 0`. -/
def orZero (x : JSNum) : JSNum :=
  if x.truthy then x else fin 0

/-- The expression `x - y`.  For finite operands the sign of the binary64 difference is the
sign of the exact difference (gradual underflow), so the exact difference is kept. -/
def sub : JSNum → JSNum → JSNum
  | nan, _ => nan
  | _, nan => nan
  | posInf, posInf => nan
  | posInf, _ => posInf
  | negInf, negInf => nan
  | negInf, _ => negInf
  | fin _, posInf => negInf
  | fin _, negInf => posInf
  | fin a, fin b => fin (a - b)

/-- The test `v > 0`. -/
def isPos : JSNum → Bool
  | posInf => true
  | fin q => decide (0 < q)
  | _ => false

/-- Numeric order `x ≤ y` on number values; it never holds when an operand is `NaN`. -/
def le : JSNum → JSNum → Prop
  | nan, _ => False
  | _, nan => False
  | negInf, _ => True
  | _, posInf => True
  | fin a, fin b => a ≤ b
  | fin _, negInf => False
  | posInf, fin _ => False
  | posInf, negInf => False

instance : DecidableRel le := fun x y => by
  cases x <;> cases y <;> simp only [le] <;> infer_instance

end JSNum

/-! ## `parseFloat` -/

/-- The white space and line terminator code points that `parseFloat` skips at the start of
its argument (`TrimString`). -/
def isStrWhiteSpace (c : Char) : Bool :=
  let n := c.toNat
  n = 9 || n = 10 || n = 11 || n = 12 || n = 13 || n = 32 || n = 160 || n = 5760 ||
    (8192 ≤ n && n ≤ 8202) || n = 8232 || n = 8233 || n = 8239 || n = 8287 ||
    n = 12288 || n = 65279

/-- Value of a run of decimal digits, most significant first. -/
def digitsValue (ds : List Char) : Nat :=
  ds.foldl (fun acc c => 10 * acc + (c.toNat - 48)) 0

/-- The `ExponentPart` of a `StrDecimalLiteral` at the head of `cs`, when there is a complete
one: `e` or `E`, an optional sign, and at least one digit. -/
def exponentPart (cs : List Char) : Int :=
  match cs with
  | [] => 0
  | c :: rest =>
    if c = 'e' ∨ c = 'E' then
      match rest with
      | '-' :: ds => - (digitsValue (ds.takeWhile Char.isDigit) : Int)
      | '+' :: ds => (digitsValue (ds.takeWhile Char.isDigit) : Int)
      | ds => (digitsValue (ds.takeWhile Char.isDigit) : Int)
    else 0

/-- The positive quotient `n / d` rounded to the nearest integer, ties to the even one. -/
def roundHalfEven (n d : Nat) : Nat :=
  let f := n / d
  let r := 2 * (n % d)
  if r < d then f else if d < r then f + 1 else if f % 2 = 0 then f else f + 1

/-- The test `2 ^ e ≤ n / d`, for `d > 0`. -/
def pow2Le (e : Int) (n d : Nat) : Bool :=
  if 0 ≤ e then decide (2 ^ e.toNat * d ≤ n) else decide (d ≤ n * 2 ^ (-e).toNat)

/-- The number of halvings that bring `n` below `2`, at most `fuel` of them. -/
def halvings : Nat → Nat → Nat
  | 0, _ => 0
  | fuel + 1, n => if n < 2 then 0 else halvings fuel (n / 2) + 1

/-- The binary logarithm `⌊log₂ n⌋`, for `n > 0`. -/
def log2Floor (n : Nat) : Nat :=
  halvings n n

/-- The binary exponent `⌊log₂ (n / d)⌋`, for `n, d > 0`. -/
def floorLog2 (n d : Nat) : Int :=
  let e0 : Int := (log2Floor n : Int) - (log2Floor d : Int)
  if pow2Le e0 n d then e0 else e0 - 1

/-- The Number value for the positive quotient `n / d` (`n, d > 0`): the nearest binary64
value, ties to even.  The unit in the last place is `2 ^ (e - 52)` for the binary exponent
`e` of the quotient, and `2 ^ -1074` below the normal range; a result of `2 ^ 1024` or more
is `Infinity`. -/
def toBinary64 (n d : Nat) : JSNum :=
  let e := max (floorLog2 n d) (-1022)
  let k := e - 52
  let m :=
    if 0 ≤ k then roundHalfEven n (d * 2 ^ k.toNat) else roundHalfEven (n * 2 ^ (-k).toNat) d
  if 1023 < e ∨ (e = 1023 ∧ m = 2 ^ 53) then JSNum.posInf
  else if 0 ≤ k then JSNum.fin ((m * 2 ^ k.toNat : Nat) : ℚ)
  else JSNum.fin ((m : ℚ) / ((2 ^ (-k).toNat : Nat) : ℚ))

/-- The Number value for `mantissa * 10 ^ e`. -/
def decimalValue (mantissa : Nat) (e : Int) : JSNum :=
  if mantissa = 0 then JSNum.fin 0
  else if 0 ≤ e then toBinary64 (mantissa * 10 ^ e.toNat) 1
  else toBinary64 mantissa (10 ^ (-e).toNat)

/-- The unsigned part of a `StrDecimalLiteral`: the longest prefix of `cs` of one of the shapes
`Infinity`, `digits . digits? exp?`, `. digits exp?`, `digits exp?`; `NaN` when no prefix has
one of these shapes. -/
def unsignedLiteral (cs : List Char) : JSNum :=
  if "Infinity".toList.isPrefixOf cs then JSNum.posInf
  else
    let intDigits := cs.takeWhile Char.isDigit
    let rest := cs.dropWhile Char.isDigit
    let fracDigits :=
      match rest with
      | '.' :: r => r.takeWhile Char.isDigit
      | _ => []
    let afterFrac :=
      match rest with
      | '.' :: r => r.dropWhile Char.isDigit
      | r => r
    if intDigits.isEmpty && fracDigits.isEmpty then JSNum.nan
    else
      decimalValue (digitsValue (intDigits ++ fracDigits))
        (exponentPart afterFrac - (fracDigits.length : Int))

/-- The built-in `parseFloat` on a string: skip leading white space, read an optional sign,
then the longest `StrDecimalLiteral` prefix; `NaN` when there is none.  The mathematical value
of the literal is rounded to the nearest binary64 value (for a literal of more than twenty
significant digits the standard also allows rounding from its twenty-digit neighbours). -/
def parseFloat (s : String) : JSNum :=
  match s.toList.dropWhile isStrWhiteSpace with
  | '-' :: cs =>
    match unsignedLiteral cs with
    | JSNum.posInf => JSNum.negInf
    | JSNum.fin q => JSNum.fin (-q)
    | v => v
  | '+' :: cs => unsignedLiteral cs
  | cs => unsignedLiteral cs

/-! ## Feed entries and the chapter sort -/

/-- The `attributes` object of a feed entry, as far as the page reads it.  `chapter` is a string
or `null` in the remote data. -/
structure ChapterAttributes where
  chapter : Option String
  title : Option String
  deriving DecidableEq

/-- One element of the feed (`chaptersData.data`). -/
structure FeedEntry where
  id : String
  attributes : ChapterAttributes
  deriving DecidableEq

/-- ToString of the argument handed to `parseFloat`: `null` becomes the string `"null"`. -/
def chapterText (e : FeedEntry) : String :=
  match e.attributes.chapter with
  | some s => s
  | none => "null"

/-- The sort key `parseFloat(a.attributes.chapter) || 0` (lines 230-231), for a given
`parseFloat`. -/
def chapterKey (pf : String → JSNum) (e : FeedEntry) : JSNum :=
  (pf (chapterText e)).orZero

/-- The comparator handed to `chapters.sort` (lines 229-233): `chapterB - chapterA`. -/
def chapterComparator (pf : String → JSNum) (a b : FeedEntry) : JSNum :=
  let chapterA := chapterKey pf a
  let chapterB := chapterKey pf b
  chapterB.sub chapterA

/-- The abstract operation `SortCompare` of `Array.prototype.sort`: a `NaN` result of the
comparator counts as `+0`. -/
def sortCompare {α : Type} (comparefn : α → α → JSNum) (x y : α) : JSNum :=
  match comparefn x y with
  | JSNum.nan => JSNum.fin 0
  | v => v

/-- The relation "`x` may stay in front of `y`": the comparison is not positive. -/
def staysBefore {α : Type} (comparefn : α → α → JSNum) (x y : α) : Prop :=
  (sortCompare comparefn x y).isPos = false

instance {α : Type} (comparefn : α → α → JSNum) : DecidableRel (staysBefore comparefn) :=
  fun x y => by unfold staysBefore; infer_instance

/-- The built-in `Array.prototype.sort(comparefn)` on an array without holes: a stable sort
(ECMAScript 2019), here by insertion, which moves an element behind another only when the
comparator says so with a positive result. -/
def arraySort {α : Type} (comparefn : α → α → JSNum) (xs : List α) : List α :=
  List.insertionSort (staysBefore comparefn) xs

/-- The list rendered by lines 228-233: `chapters.sort((a, b) => ...)`. -/
def sortChapters (pf : String → JSNum) (chapters : List FeedEntry) : List FeedEntry :=
  arraySort (chapterComparator pf) chapters

/-! ## Remote data -/

/-- What `await fetch(url)` followed by `await res.json()` can do: the request rejects, the
body cannot be used as a JSON object (decoding throws, or it decodes to `null`, on which the
first property access throws), or a body is obtained.  An HTTP error status still resolves
with a body. -/
inductive Response (β : Type) where
  | networkError
  | invalidJson
  | ok (body : β)

/-- An element of `details.relationships`. -/
structure Relationship where
  type : String
  id : String
  deriving DecidableEq

/-- The localized title object; only the `en` variant is read. -/
structure MangaTitle where
  en : Option String
  deriving DecidableEq

/-- The `attributes` object of an item record, as far as the handlers read it. -/
structure MangaAttributes where
  title : Option MangaTitle
  deriving DecidableEq

/-- The item record `res.data` of the manga endpoint, with the shape the page relies on: an
`id`, an `attributes` object and a `relationships` array. -/
structure MangaDetails where
  id : String
  attributes : MangaAttributes
  relationships : List Relationship
  deriving DecidableEq

/-- Body of the manga endpoint; `data` is `none` when the property is missing or `null`. -/
structure MangaBody where
  data : Option MangaDetails

/-- The object `coverData.data.attributes`. -/
structure CoverAttributes where
  fileName : Option String

/-- The object `coverData.data`. -/
structure CoverData where
  attributes : Option CoverAttributes

/-- Body of the cover endpoint. -/
structure CoverBody where
  data : Option CoverData

/-- The object `authorData.data.attributes`. -/
structure AuthorAttributes where
  name : Option String

/-- The object `authorData.data`. -/
structure AuthorData where
  attributes : Option AuthorAttributes

/-- Body of the author endpoint. -/
structure AuthorBody where
  data : Option AuthorData

/-- Body of the feed endpoint. -/
structure FeedBody where
  data : Option (List FeedEntry)

/-- The remote service: the answer to each of the four lookups, by identifier. -/
structure Remote where
  manga : String → Response MangaBody
  cover : String → Response CoverBody
  author : String → Response AuthorBody
  feed : String → Response FeedBody

/-- A network request issued by the page. -/
inductive Request where
  | manga (id : String)
  | cover (id : String)
  | author (id : String)
  | feed (id : String)
  deriving DecidableEq

/-- The URL of a request (lines 11, 25, 39, 74). -/
def Request.url : Request → String
  | .manga id => "https://api.mangadex.org/manga/" ++ id
  | .author id => "https://api.mangadex.org/author/" ++ id
  | .feed id =>
    "https://api.mangadex.org/manga/" ++ id ++
      "/feed?limit=500&translatedLanguage[]=en&order[chapter]=desc&includeEmptyPages=0"
  | .cover id => "https://api.mangadex.org/cover/" ++ id

/-- The fallback creator name (lines 31 and 197). -/
def unknownAuthor : String := "Unknown author"

/-- The helper `fetchMangaDetails` (lines 8-19): `res.data`, or `null` when the request or
the JSON decoding throws.  `none` stands for `null` and `undefined`. -/
def fetchMangaDetails (remote : Remote) (currentMangaId : String) : Option MangaDetails :=
  match remote.manga currentMangaId with
  | .ok res => res.data
  | _ => none

/-- The helper `fetchAuthorDetails` (lines 22-33): `authorData.data.attributes.name`, or the
fallback when anything inside the `try` throws (rejected request, bad JSON, property access
on a missing `data` or `attributes`).  A missing `name` is returned as it is (`undefined`). -/
def fetchAuthorDetails (remote : Remote) (authorId : String) : Option String :=
  match remote.author authorId with
  | .ok authorData =>
    match authorData.data with
    | some data =>
      match data.attributes with
      | some attributes => attributes.name
      | none => some unknownAuthor
    | none => some unknownAuthor
  | _ => some unknownAuthor

/-- The helper `fetchChapters` (lines 36-47): `chaptersData.data` (possibly `undefined`), or
`[]` when the request or the JSON decoding throws. -/
def fetchChapters (remote : Remote) (mangaId : String) : Option (List FeedEntry) :=
  match remote.feed mangaId with
  | .ok chaptersData => chaptersData.data
  | _ => some []

/-! ## The persisted library -/

/-- The object built by `addToLibrary` and stored in the library.  `title` is `undefined`
when the item has no English title (the key is then dropped by `JSON.stringify`),
`coverImageUrl` is `null` when no cover was resolved. -/
structure LibraryEntry where
  id : String
  title : Option String
  coverImageUrl : Option String
  chapterCount : Nat
  deriving DecidableEq

/-- The `library` slot of `localStorage`, by what `JSON.parse(localStorage.getItem("library"))`
does with it:
* `absent`: `getItem` returns `null`, which parses to `null`;
* `unparsable`: the text is not JSON, `JSON.parse` throws a `SyntaxError`;
* `falsy`: the text parses to `null`, `false`, `0` or `""`;
* `notArray`: the text parses to a truthy value that has no array methods;
* `entries l`: the text is the serialization of the array `l` of entry objects. -/
inductive Slot where
  | absent
  | unparsable
  | falsy
  | notArray
  | entries (l : List LibraryEntry)
  deriving DecidableEq

/-- The exceptions the page can raise. -/
inductive JSError where
  | syntaxError
  | typeError
  deriving DecidableEq

/-- The statement `const library = JSON.parse(localStorage.getItem("library")) || [];`
(lines 107, 125, 133) together with the first method call on `library` that follows it
directly (`some`, `push`, `filter`), which throws a `TypeError` when the value is not an
array. -/
def readLibrary : Slot → Except JSError (List LibraryEntry)
  | .absent => .ok []
  | .unparsable => .error .syntaxError
  | .falsy => .ok []
  | .notArray => .error .typeError
  | .entries l => .ok l

/-- The entries a slot holds; a slot that holds no array of entries holds none. -/
def Slot.contents : Slot → List LibraryEntry
  | .entries l => l
  | _ => []

/-- The test `library.some((item) => item.id === id)` (line 108). -/
def librarySome (library : List LibraryEntry) (id : String) : Bool :=
  library.any (fun item => item.id == id)

/-- The membership test of lines 107-108: read the library, then `library.some(...)`. -/
def isMangaInLibrary (slot : Slot) (id : String) : Except JSError Bool :=
  match readLibrary slot with
  | .error e => .error e
  | .ok library => .ok (librarySome library id)

/-! ## Screen state, effect and handlers -/

/-- The five `useState` cells of `MangaDetailsPage` (lines 50-54).  `none` stands for `null`
and `undefined`. -/
structure Screen where
  mangaDetails : Option MangaDetails
  coverImageUrl : Option String
  authorNames : Option String
  chapters : Option (List FeedEntry)
  isAdded : Bool
  deriving DecidableEq

/-- The state of a freshly mounted screen: the initial values given to `useState`. -/
def Screen.initial : Screen :=
  { mangaDetails := none, coverImageUrl := none, authorNames := none,
    chapters := some [], isAdded := false }

/-- Everything the page reads or writes: its state, the `library` slot of `localStorage`,
and the requests sent so far. -/
structure World where
  screen : Screen
  library : Slot
  requests : List Request
  deriving DecidableEq

/-- The result of running the effect or a handler: the world it leaves, and the exception
it ended with, if any. -/
structure Outcome where
  world : World
  raised : Option JSError
  deriving DecidableEq

/-- A freshly mounted screen over a given library slot. -/
def World.mount (library : Slot) : World :=
  { screen := Screen.initial, library := library, requests := [] }

/-- Record that a request was sent. -/
def World.fetch (w : World) (r : Request) : World :=
  { w with requests := w.requests ++ [r] }

/-- The setter `setMangaDetails`. -/
def World.setMangaDetails (w : World) (v : Option MangaDetails) : World :=
  { w with screen := { w.screen with mangaDetails := v } }

/-- The setter `setCoverImageUrl`. -/
def World.setCoverImageUrl (w : World) (v : Option String) : World :=
  { w with screen := { w.screen with coverImageUrl := v } }

/-- The setter `setAuthorNames`. -/
def World.setAuthorNames (w : World) (v : Option String) : World :=
  { w with screen := { w.screen with authorNames := v } }

/-- The setter `setChapters`. -/
def World.setChapters (w : World) (v : Option (List FeedEntry)) : World :=
  { w with screen := { w.screen with chapters := v } }

/-- The setter `setIsAdded`. -/
def World.setIsAdded (w : World) (v : Bool) : World :=
  { w with screen := { w.screen with isAdded := v } }

/-- The prefix of every cover URL (line 81). -/
def coverBase : String := "https://uploads.mangadex.org/covers/"

/-- The cover URL template of line 81. -/
def coverUrl (paramsDetails fileName : String) : String :=
  coverBase ++ paramsDetails ++ "/" ++ fileName

/-- Lines 76-88 of `fetchData`, what is done with the answer of the cover endpoint: set the
cover URL if the answer has a truthy `data.attributes.fileName`.  A missing `data` takes the
`else` branch, a missing `attributes` throws into the `catch`; both only log. -/
def receiveCover (remote : Remote) (paramsDetails coverArtId : String) (w : World) : World :=
  match remote.cover coverArtId with
  | .ok coverData =>
    match coverData.data with
    | some data =>
      match data.attributes with
      | some attributes =>
        match attributes.fileName with
        | some fileName =>
          if fileName = "" then w
          else w.setCoverImageUrl (some (coverUrl paramsDetails fileName))
        | none => w
      | none => w
    | none => w
  | _ => w

/-- Lines 71-91 of `fetchData`: when `coverArtId` is truthy, ask the cover endpoint and
handle its answer; otherwise only log. -/
def loadCover (remote : Remote) (paramsDetails : String) (coverArtId : Option String)
    (w : World) : World :=
  match coverArtId with
  | none => w
  | some cid =>
    if cid = "" then w
    else receiveCover remote paramsDetails cid (w.fetch (.cover cid))

/-- The effect body `fetchData` (lines 58-111), run for the route parameter
`params.details` from its first line to its last with nothing else happening in between.
The same body cut at its `await`s is `resume` below. -/
def fetchData (remote : Remote) (paramsDetails : String) (w : World) : Outcome :=
  let w := w.fetch (.manga paramsDetails)
  match fetchMangaDetails remote paramsDetails with
  | none => { world := w, raised := none }
  | some details =>
    let w := w.setMangaDetails (some details)
    let coverArtRelationship := details.relationships.find? (fun r => r.type == "cover_art")
    let coverArtId := coverArtRelationship.map (fun r => r.id)
    let w := loadCover remote paramsDetails coverArtId w
    let authors := details.relationships.filter (fun r => r.type == "author")
    let w :=
      match authors with
      | a :: _ => (w.fetch (.author a.id)).setAuthorNames (fetchAuthorDetails remote a.id)
      | [] => w
    let w := (w.fetch (.feed paramsDetails)).setChapters (fetchChapters remote paramsDetails)
    match isMangaInLibrary w.library details.id with
    | .error e => { world := w, raised := some e }
    | .ok isMangaInLibrary => { world := w.setIsAdded isMangaInLibrary, raised := none }

/-- The object literal `mangaData` of `addToLibrary` (lines 118-123).  Reading `.id` of a
`null` item or `.length` of an `undefined` feed throws a `TypeError`. -/
def mangaData (s : Screen) : Except JSError LibraryEntry :=
  match s.mangaDetails with
  | none => .error .typeError
  | some mangaDetails =>
    match s.chapters with
    | none => .error .typeError
    | some chapters =>
      .ok { id := mangaDetails.id,
            title := mangaDetails.attributes.title.bind (fun t => t.en),
            coverImageUrl := s.coverImageUrl,
            chapterCount := chapters.length }

/-- The handler `addToLibrary` (lines 117-129). -/
def addToLibrary (w : World) : Outcome :=
  match mangaData w.screen with
  | .error e => { world := w, raised := some e }
  | .ok entry =>
    match readLibrary w.library with
    | .error e => { world := w, raised := some e }
    | .ok library =>
      { world := { w with library := .entries (library ++ [entry]) }.setIsAdded true,
        raised := none }

/-- The handler `removeFromLibrary` (lines 132-139).  With a `null` item the filter callback
throws a `TypeError` on the first entry it is called on; on an empty library it is never
called. -/
def removeFromLibrary (w : World) : Outcome :=
  match readLibrary w.library with
  | .error e => { world := w, raised := some e }
  | .ok library =>
    match w.screen.mangaDetails with
    | none =>
      match library with
      | [] => { world := { w with library := .entries [] }.setIsAdded false, raised := none }
      | _ :: _ => { world := w, raised := some .typeError }
    | some mangaDetails =>
      let updatedLibrary := library.filter (fun item => item.id != mangaDetails.id)
      { world := { w with library := .entries updatedLibrary }.setIsAdded false,
        raised := none }

/-- The handler bound to `onClick` of the save button (line 209):
`isAdded ? removeFromLibrary : addToLibrary`. -/
def onClick (w : World) : Outcome :=
  if w.screen.isAdded then removeFromLibrary w else addToLibrary w

/-- A click on the save button (lines 207-217).  There is a button only when the component
gets past line 141 (an item is set) and past `chapters.length` on line 226 (the feed is
defined); a button with `disabled={isAdded}` (line 208) dispatches no click. -/
def clickSave (w : World) : Outcome :=
  match w.screen.mangaDetails, w.screen.chapters with
  | some _, some _ => if w.screen.isAdded then { world := w, raised := none } else onClick w
  | _, _ => { world := w, raised := none }

/-! ## The effect cut at its `await`s -/

/-- Where a run of `fetchData` is suspended: the request it awaits, with the locals that are
live there. -/
inductive Suspended where
  | atDetails (paramsDetails : String)
  | atCover (paramsDetails : String) (details : MangaDetails) (coverArtId : String)
  | atAuthor (paramsDetails : String) (details : MangaDetails) (authorId : String)
  | atChapters (paramsDetails : String) (details : MangaDetails)
  deriving DecidableEq

/-- The result of running `fetchData` from one suspension to the next: the world, the
suspension reached (none when the body has ended) and the exception it ended with, if any. -/
structure Resumed where
  world : World
  next : Option Suspended
  raised : Option JSError
  deriving DecidableEq

/-- Line 113: the effect calls `fetchData`, which sends the base request and awaits it
(line 59). -/
def fetchDataStart (paramsDetails : String) (w : World) : Resumed :=
  { world := w.fetch (.manga paramsDetails), next := some (.atDetails paramsDetails),
    raised := none }

/-- Line 103: send the feed request and await it. -/
def toChapters (paramsDetails : String) (details : MangaDetails) (w : World) : Resumed :=
  { world := w.fetch (.feed paramsDetails), next := some (.atChapters paramsDetails details),
    raised := none }

/-- Lines 94-100: with an `author` relationship send the author request and await it
(line 98), otherwise go on to the feed. -/
def toAuthor (paramsDetails : String) (details : MangaDetails) (w : World) : Resumed :=
  match details.relationships.filter (fun r => r.type == "author") with
  | a :: _ =>
    { world := w.fetch (.author a.id), next := some (.atAuthor paramsDetails details a.id),
      raised := none }
  | [] => toChapters paramsDetails details w

/-- The body of `fetchData` from the `await` it is suspended at to the next `await` (or to its
end), given what the remote service answers to the awaited request. -/
def resume (remote : Remote) : Suspended → World → Resumed
  | .atDetails paramsDetails, w =>
    match fetchMangaDetails remote paramsDetails with
    | none => { world := w, next := none, raised := none }
    | some details =>
      let w := w.setMangaDetails (some details)
      let coverArtRelationship := details.relationships.find? (fun r => r.type == "cover_art")
      match coverArtRelationship.map (fun r => r.id) with
      | some cid =>
        if cid = "" then toAuthor paramsDetails details w
        else
          { world := w.fetch (.cover cid), next := some (.atCover paramsDetails details cid),
            raised := none }
      | none => toAuthor paramsDetails details w
  | .atCover paramsDetails details coverArtId, w =>
    toAuthor paramsDetails details (receiveCover remote paramsDetails coverArtId w)
  | .atAuthor paramsDetails details authorId, w =>
    toChapters paramsDetails details (w.setAuthorNames (fetchAuthorDetails remote authorId))
  | .atChapters paramsDetails details, w =>
    let w := w.setChapters (fetchChapters remote paramsDetails)
    match isMangaInLibrary w.library details.id with
    | .error e => { world := w, next := none, raised := some e }
    | .ok isMangaInLibrary =>
      { world := w.setIsAdded isMangaInLibrary, next := none, raised := none }

/-! ## Render -/

/-- The part of the rendered page that depends on the state cells above. -/
structure PageView where
  title : String
  poster : Option String
  creator : String
  saveDisabled : Bool
  saveLabel : String
  chapterList : List FeedEntry
  deriving DecidableEq

/-- What the component returns. -/
inductive Rendered where
  | loading
  | page (v : PageView)
  deriving DecidableEq

/-- The expression `authorNames || "Unknown author"` (line 197). -/
def creatorLine (s : Screen) : String :=
  match s.authorNames with
  | some name => if name = "" then unknownAuthor else name
  | none => unknownAuthor

/-- The expression `title?.en || "No title available"` (line 144). -/
def mangaTitle (d : MangaDetails) : String :=
  match d.attributes.title.bind (fun t => t.en) with
  | some t => if t = "" then "No title available" else t
  | none => "No title available"

/-- The component body from line 141 on.  `chapters.length` on an `undefined` feed throws. -/
def render (pf : String → JSNum) (s : Screen) : Except JSError Rendered :=
  match s.mangaDetails with
  | none => .ok .loading
  | some mangaDetails =>
    match s.chapters with
    | none => .error .typeError
    | some chapters =>
      .ok (.page
        { title := mangaTitle mangaDetails,
          poster := s.coverImageUrl.bind (fun u => if u = "" then none else some u),
          creator := creatorLine s,
          saveDisabled := s.isAdded,
          saveLabel := if s.isAdded then "Added" else "Add to Library",
          chapterList := if chapters.length > 0 then sortChapters pf chapters else [] })

/-! ## What happens to a mounted page, `await` by `await` -/

/-- A mounted page: its world, and the runs of `fetchData` that are suspended at an
`await`. -/
structure Page where
  world : World
  inFlight : List Suspended
  deriving DecidableEq

/-- What can happen to a mounted page between two renders:
* `activate`: the effect of lines 57-114 runs for a route parameter and starts `fetchData`;
* `settle`: the request awaited by the `i`-th suspended run settles with the answer of the
  remote service at that time, and that run goes on to its next `await`;
* `click`: the user clicks the save button;
* `dispatch`: the handler of line 209 is called whatever the button looks like;
* `remount`: the page is left and mounted again; the state cells take their initial values,
  and the runs still suspended belong to the unmounted instance, whose setters do nothing. -/
inductive Tick where
  | activate (paramsDetails : String)
  | settle (remote : Remote) (i : Nat)
  | click
  | dispatch
  | remount

/-- One tick. -/
def tick (pg : Page) : Tick → Page
  | .activate paramsDetails =>
    let r := fetchDataStart paramsDetails pg.world
    { world := r.world, inFlight := pg.inFlight ++ r.next.toList }
  | .settle remote i =>
    match pg.inFlight.get? i with
    | none => pg
    | some s =>
      let r := resume remote s pg.world
      { world := r.world, inFlight := pg.inFlight.eraseIdx i ++ r.next.toList }
  | .click => { pg with world := (clickSave pg.world).world }
  | .dispatch => { pg with world := (onClick pg.world).world }
  | .remount => { world := { pg.world with screen := Screen.initial }, inFlight := [] }

/-- A sequence of ticks. -/
def ticks (pg : Page) (ts : List Tick) : Page :=
  ts.foldl tick pg

/-- The ticks of one load that nothing interrupts: the effect starts, and its (at most four)
awaited requests settle one after the other. -/
def loadTicks (remote : Remote) (paramsDetails : String) : List Tick :=
  [.activate paramsDetails, .settle remote 0, .settle remote 0, .settle remote 0,
   .settle remote 0]

/-! ## Sequences of completed loads and clicks -/

/-- What can happen to the page when no load is ever interrupted:
* `load`: the effect runs for a route parameter from start to end (`fetchData`, which is
  `loadTicks` on a page with no run in flight);
* `click`: the user clicks the save button;
* `dispatch`: the handler of line 209 is called whatever the button looks like;
* `remount`: the page is left and mounted again. -/
inductive Event where
  | load (remote : Remote) (paramsDetails : String)
  | click
  | dispatch
  | remount

/-- One event. -/
def step (w : World) : Event → World
  | .load remote paramsDetails => (fetchData remote paramsDetails w).world
  | .click => (clickSave w).world
  | .dispatch => (onClick w).world
  | .remount => { w with screen := Screen.initial }

/-- A sequence of events, each run to its end before the next begins. -/
def run (w : World) (events : List Event) : World :=
  events.foldl step w

/-- The ticks an event stands for. -/
def Event.ticks : Event → List Tick
  | .load remote paramsDetails => loadTicks remote paramsDetails
  | .click => [.click]
  | .dispatch => [.dispatch]
  | .remount => [.remount]

/-- What every sequence of loads and clicks preserves: the entries of the slot have distinct
ids, and a screen that shows an item with the saved flag cleared shows an item that the
library, as far as it can be read, does not hold. -/
def LibraryInvariant (w : World) : Prop :=
  (w.library.contents.map (fun item => item.id)).Nodup ∧
  ∀ (d : MangaDetails) (L : List LibraryEntry),
    w.screen.mangaDetails = some d → w.screen.isAdded = false →
    readLibrary w.library = .ok L → librarySome L d.id = false

/-! ## Concrete data used in the examples -/

/-- The feed of the sorting example: chapters `10`, `2` and `abc`. -/
def exampleFeed : List FeedEntry :=
  [ { id := "1", attributes := { chapter := some "10", title := none } },
    { id := "2", attributes := { chapter := some "2", title := none } },
    { id := "3", attributes := { chapter := some "abc", title := none } } ]

/-- The item `abc` of the cover example: one cover and one author relationship. -/
def detailsAbc : MangaDetails :=
  { id := "abc",
    attributes := { title := some { en := some "Abc" } },
    relationships :=
      [ { type := "cover_art", id := "cov1" }, { type := "author", id := "auth1" } ] }

/-- An item `xyz` without any relationship. -/
def detailsXyz : MangaDetails :=
  { id := "xyz", attributes := { title := none }, relationships := [] }

/-- An item `def` with a cover and an author relationship whose lookups both fail. -/
def detailsDef : MangaDetails :=
  { id := "def",
    attributes := { title := some { en := some "Def" } },
    relationships :=
      [ { type := "cover_art", id := "cov2" }, { type := "author", id := "auth2" } ] }

/-- A feed in no particular order, with a `null` chapter, a chapter that overflows binary64
and two chapters that round to the same binary64 value. -/
def shuffledFeed : List FeedEntry :=
  [ { id := "a", attributes := { chapter := some "2", title := none } },
    { id := "b", attributes := { chapter := some "abc", title := none } },
    { id := "c", attributes := { chapter := some "10", title := none } },
    { id := "d", attributes := { chapter := none, title := none } },
    { id := "e", attributes := { chapter := some "10.5", title := none } },
    { id := "f", attributes := { chapter := some "-1", title := none } },
    { id := "g", attributes := { chapter := some "2.0", title := none } },
    { id := "h", attributes := { chapter := some "1e400", title := none } },
    { id := "i", attributes := { chapter := some "0.1", title := none } },
    { id := "j", attributes := { chapter := some "0.10000000000000000001", title := none } } ]

/-- A remote service that knows the items `abc`, `xyz` and `def`, answers the route `ABC`
with the record of `abc`, knows the cover `cov1` with file name `x.jpg` and the author
`auth1`, and answers every feed request with `exampleFeed`. -/
def exampleRemote : Remote :=
  { manga := fun id =>
      if id = "abc" then .ok { data := some detailsAbc }
      else if id = "xyz" then .ok { data := some detailsXyz }
      else if id = "def" then .ok { data := some detailsDef }
      else if id = "ABC" then .ok { data := some detailsAbc }
      else .ok { data := none },
    cover := fun id =>
      if id = "cov1" then .ok { data := some { attributes := some { fileName := some "x.jpg" } } }
      else .networkError,
    author := fun id =>
      if id = "auth1" then .ok { data := some { attributes := some { name := some "A. Writer" } } }
      else .networkError,
    feed := fun _ => .ok { data := some exampleFeed } }

/-- A remote service that is unreachable: every request rejects. -/
def offlineRemote : Remote :=
  { manga := fun _ => .networkError,
    cover := fun _ => .networkError,
    author := fun _ => .networkError,
    feed := fun _ => .networkError }

/-- The library entry `addToLibrary` builds for `abc` after the load against
`exampleRemote`. -/
def entryAbc : LibraryEntry :=
  { id := "abc", title := some "Abc",
    coverImageUrl := some "https://uploads.mangadex.org/covers/abc/x.jpg", chapterCount := 3 }

/-- A library entry for `xyz`. -/
def entryXyz : LibraryEntry :=
  { id := "xyz", title := none, coverImageUrl := none, chapterCount := 0 }

/-! # Theorems -/

/-! ## The chapter sort -/

theorem JSNum.orZero_ne_nan (x : JSNum) : x.orZero ≠ JSNum.nan := by
  cases x <;> simp [JSNum.orZero, JSNum.truthy]
  split <;> simp

theorem JSNum.orZero_of_ne_nan {x : JSNum} (h : x ≠ JSNum.nan) : x.orZero = x := by
  cases x <;> simp_all [JSNum.orZero, JSNum.truthy]

theorem chapterKey_ne_nan (pf : String → JSNum) (e : FeedEntry) :
    chapterKey pf e ≠ JSNum.nan :=
  JSNum.orZero_ne_nan _

theorem JSNum.le_total_of_ne_nan {x y : JSNum} (hx : x ≠ JSNum.nan) (hy : y ≠ JSNum.nan) :
    x.le y ∨ y.le x := by
  cases x <;> cases y <;> simp_all [JSNum.le]
  exact le_total _ _

theorem JSNum.le_transitive {x y z : JSNum} (hxy : x.le y) (hyz : y.le z) : x.le z := by
  cases x <;> cases y <;> cases z <;> simp_all [JSNum.le]
  exact le_trans hxy hyz

theorem JSNum.isPos_eq_false_of_orZero_le_zero {y : JSNum}
    (h : y.orZero.le (JSNum.fin 0)) : y.isPos = false := by
  cases y with
  | nan => rfl
  | negInf => rfl
  | posInf => simp [JSNum.orZero, JSNum.truthy, JSNum.le] at h
  | fin q =>
    by_cases hq : q = 0
    · simp [hq, JSNum.isPos]
    · simpa [JSNum.orZero, JSNum.truthy, hq, JSNum.le, JSNum.isPos] using h

/-- The comparator lets `a` stay in front of `b` exactly when `b`'s key is at most `a`'s. -/
theorem staysBefore_chapterComparator_iff (pf : String → JSNum) (a b : FeedEntry) :
    staysBefore (chapterComparator pf) a b ↔ (chapterKey pf b).le (chapterKey pf a) := by
  have ha := chapterKey_ne_nan pf a
  have hb := chapterKey_ne_nan pf b
  unfold staysBefore sortCompare chapterComparator
  generalize chapterKey pf a = x at *
  generalize chapterKey pf b = y at *
  cases x <;> cases y <;> simp_all [JSNum.sub, JSNum.isPos, JSNum.le]

/-- The comparator is a total preorder, so any stable sort returns the same array. -/
theorem staysBefore_chapterComparator_total (pf : String → JSNum) :
    IsTotal FeedEntry (staysBefore (chapterComparator pf)) :=
  ⟨fun a b => by
    simp only [staysBefore_chapterComparator_iff]
    exact (JSNum.le_total_of_ne_nan (chapterKey_ne_nan pf a) (chapterKey_ne_nan pf b)).symm⟩

theorem staysBefore_chapterComparator_trans (pf : String → JSNum) :
    IsTrans FeedEntry (staysBefore (chapterComparator pf)) :=
  ⟨fun a b c hab hbc => by
    simp only [staysBefore_chapterComparator_iff] at *
    exact JSNum.le_transitive hbc hab⟩

theorem sortChapters_sorted (pf : String → JSNum) (xs : List FeedEntry) :
    (sortChapters pf xs).Pairwise (staysBefore (chapterComparator pf)) := by
  haveI := staysBefore_chapterComparator_total pf
  haveI := staysBefore_chapterComparator_trans pf
  exact List.sorted_insertionSort (staysBefore (chapterComparator pf)) xs


theorem JSNum.le_refl_of_ne_nan {x : JSNum} (hx : x ≠ JSNum.nan) : x.le x := by
  cases x <;> simp_all [JSNum.le]

theorem JSNum.le_antisymm_num {x y : JSNum} (hxy : x.le y) (hyx : y.le x) : x = y := by
  cases x <;> cases y <;> simp_all [JSNum.le]
  exact le_antisymm hxy hyx

/-- Two feeds in non-increasing key order that agree, key by key, on the entries with that
key in their order, are the same feed. -/
theorem eq_of_descending_of_filter_eq (pf : String → JSNum) :
    ∀ ys zs : List FeedEntry,
      ys.Pairwise (fun a b => (chapterKey pf b).le (chapterKey pf a)) →
      zs.Pairwise (fun a b => (chapterKey pf b).le (chapterKey pf a)) →
      (∀ k : JSNum, ys.filter (fun e => decide (chapterKey pf e = k)) =
        zs.filter (fun e => decide (chapterKey pf e = k))) →
      ys = zs := by
  intro ys
  induction ys with
  | nil =>
    intro zs _ _ hfilter
    cases zs with
    | nil => rfl
    | cons z zs =>
      have h := hfilter (chapterKey pf z)
      simp at h
  | cons y ys ih =>
    intro zs hys hzs hfilter
    cases zs with
    | nil =>
      have h := hfilter (chapterKey pf y)
      simp at h
    | cons z zs =>
      have hy : y ∈ z :: zs := by
        have h := hfilter (chapterKey pf y)
        have hmem : y ∈ (y :: ys).filter
            (fun e => decide (chapterKey pf e = chapterKey pf y)) := by
          simp
        rw [h] at hmem
        exact (List.mem_filter.1 hmem).1
      have hz : z ∈ y :: ys := by
        have h := hfilter (chapterKey pf z)
        have hmem : z ∈ (z :: zs).filter
            (fun e => decide (chapterKey pf e = chapterKey pf z)) := by
          simp
        rw [← h] at hmem
        exact (List.mem_filter.1 hmem).1
      have hyz : (chapterKey pf y).le (chapterKey pf z) := by
        rcases List.mem_cons.1 hy with h | h
        · rw [h]; exact JSNum.le_refl_of_ne_nan (chapterKey_ne_nan pf z)
        · exact (List.pairwise_cons.1 hzs).1 y h
      have hzy : (chapterKey pf z).le (chapterKey pf y) := by
        rcases List.mem_cons.1 hz with h | h
        · rw [h]; exact JSNum.le_refl_of_ne_nan (chapterKey_ne_nan pf y)
        · exact (List.pairwise_cons.1 hys).1 z h
      have hkey : chapterKey pf y = chapterKey pf z := JSNum.le_antisymm_num hyz hzy
      have hhead := hfilter (chapterKey pf y)
      simp only [List.filter_cons, hkey, decide_True, if_true] at hhead
      have hyz_eq : y = z := (List.cons.inj hhead).1
      subst hyz_eq
      congr 1
      apply ih zs (List.pairwise_cons.1 hys).2 (List.pairwise_cons.1 hzs).2
      intro k
      have h := hfilter k
      simp only [List.filter_cons] at h
      by_cases hk : chapterKey pf y = k
      · simp only [hk, decide_True, if_true] at h
        exact (List.cons.inj h).2
      · simpa [hk] using h

/-- The model of `sort` does not depend on the sorting algorithm: every permutation of the
feed that is in comparator order and stable (a run of entries that already is in comparator
order keeps its order) is the feed returned by `sortChapters`. -/
theorem sortChapters_unique (pf : String → JSNum) (xs ys : List FeedEntry)
    (hperm : ys.Perm xs)
    (hsorted : ys.Pairwise (staysBefore (chapterComparator pf)))
    (hstable : ∀ c : List FeedEntry, c.Pairwise (staysBefore (chapterComparator pf)) →
      c.Sublist xs → c.Sublist ys) :
    ys = sortChapters pf xs := by
  have hties : ∀ k : JSNum,
      (xs.filter (fun e => decide (chapterKey pf e = k))).Pairwise
        (staysBefore (chapterComparator pf)) := by
    intro k
    apply List.pairwise_of_forall_mem_list
    intro a ha b hb
    have hak := (List.mem_filter.1 ha).2
    have hbk := (List.mem_filter.1 hb).2
    simp only [decide_eq_true_eq] at hak hbk
    rw [staysBefore_chapterComparator_iff, hak, hbk]
    exact JSNum.le_refl_of_ne_nan (hak ▸ chapterKey_ne_nan pf a)
  have hfilter : ∀ (zs : List FeedEntry), zs.Perm xs →
      (∀ c : List FeedEntry, c.Pairwise (staysBefore (chapterComparator pf)) →
        c.Sublist xs → c.Sublist zs) →
      ∀ k : JSNum, zs.filter (fun e => decide (chapterKey pf e = k)) =
        xs.filter (fun e => decide (chapterKey pf e = k)) := by
    intro zs hp hs k
    have hsub := (hs _ (hties k) (List.filter_sublist xs)).filter
      (fun e => decide (chapterKey pf e = k))
    rw [List.filter_filter] at hsub
    simp only [Bool.and_self] at hsub
    exact (hsub.eq_of_length ((hp.filter _).length_eq).symm).symm
  have hdesc : ∀ zs : List FeedEntry, zs.Pairwise (staysBefore (chapterComparator pf)) →
      zs.Pairwise (fun a b => (chapterKey pf b).le (chapterKey pf a)) :=
    fun zs h => h.imp (fun {a b} hab => (staysBefore_chapterComparator_iff pf a b).1 hab)
  apply eq_of_descending_of_filter_eq pf ys (sortChapters pf xs) (hdesc _ hsorted)
    (hdesc _ (sortChapters_sorted pf xs))
  intro k
  rw [hfilter ys hperm hstable k]
  exact (hfilter (sortChapters pf xs) (List.perm_insertionSort _ xs)
    (fun c hc hsub => List.sublist_insertionSort hc hsub) k).symm

/-- The argument handed to `parseFloat` is the `chapter` field itself, or the text `null`
when the field is `null`. -/
theorem chapterText_eq (e : FeedEntry) :
    chapterText e = e.attributes.chapter.getD "null" := by
  unfold chapterText
  cases e.attributes.chapter <;> rfl

/-- C5: the chapter sort returns a permutation of the feed in non-increasing order of the
key of its entries, whatever `parseFloat` returns; the key of an entry is what `parseFloat`
makes of its `chapter` field (of the text `null` for a `null` field) when that is a number,
and `0` when it is `NaN`; no entry with a positive chapter follows an entry whose chapter
does not parse.  The feed `10`, `2`, `abc` keeps the order of ids `1`, `2`, `3`, in whatever
order it is received, and a shuffled feed is put in the order `1e400`, `10.5`, `10`, `2`,
`2.0`, `0.1`, `0.10000000000000000001`, `abc`, `null`, `-1`. -/
theorem sortChapters_descending (pf : String → JSNum) (xs : List FeedEntry) :
    (sortChapters pf xs).Perm xs ∧
    (sortChapters pf xs).Pairwise
      (fun a b => (chapterKey pf b).le (chapterKey pf a)) ∧
    (∀ e : FeedEntry, pf (e.attributes.chapter.getD "null") = JSNum.nan →
      chapterKey pf e = JSNum.fin 0) ∧
    (∀ e : FeedEntry, pf (e.attributes.chapter.getD "null") ≠ JSNum.nan →
      chapterKey pf e = pf (e.attributes.chapter.getD "null")) ∧
    (sortChapters pf xs).Pairwise
      (fun a b => pf (a.attributes.chapter.getD "null") = JSNum.nan →
        (pf (b.attributes.chapter.getD "null")).isPos = false) ∧
    (sortChapters parseFloat exampleFeed).map (fun e => e.id) = ["1", "2", "3"] ∧
    (sortChapters parseFloat exampleFeed.reverse).map (fun e => e.id) = ["1", "2", "3"] ∧
    (sortChapters parseFloat shuffledFeed).map (fun e => e.id) =
      ["h", "e", "c", "a", "g", "i", "j", "b", "d", "f"] := by
  have hsorted := sortChapters_sorted pf xs
  have hkey : (sortChapters pf xs).Pairwise
      (fun a b => (chapterKey pf b).le (chapterKey pf a)) :=
    hsorted.imp (fun {a b} h => (staysBefore_chapterComparator_iff pf a b).1 h)
  refine ⟨List.perm_insertionSort _ xs, hkey, ?_, ?_, ?_, by decide!, by decide!, by decide!⟩
  · intro e he
    rw [← chapterText_eq] at he
    simp [chapterKey, he, JSNum.orZero, JSNum.truthy]
  · intro e he
    rw [← chapterText_eq] at he ⊢
    exact JSNum.orZero_of_ne_nan he
  · refine hkey.imp ?_
    intro a b hle hnan
    rw [← chapterText_eq] at hnan ⊢
    have ha : chapterKey pf a = JSNum.fin 0 := by
      simp [chapterKey, hnan, JSNum.orZero, JSNum.truthy]
    rw [ha] at hle
    exact JSNum.isPos_eq_false_of_orZero_le_zero hle

/-- C6: sorting an already sorted feed changes nothing, `sort(sort(xs)) = sort(xs)`, entry
for entry, ties and unparseable chapters included. -/
theorem sortChapters_idempotent (pf : String → JSNum) (xs : List FeedEntry) :
    sortChapters pf (sortChapters pf xs) = sortChapters pf xs :=
  List.Sorted.insertionSort_eq (sortChapters_sorted pf xs)


/-! ## The load without a base item -/

/-- The base lookup yields nothing exactly when the request rejects, the body is not JSON, or
the body has no `data`. -/
theorem fetchMangaDetails_eq_none_iff (remote : Remote) (id : String) :
    fetchMangaDetails remote id = none ↔
      remote.manga id = .networkError ∨ remote.manga id = .invalidJson ∨
        remote.manga id = .ok { data := none } := by
  unfold fetchMangaDetails
  cases h : remote.manga id with
  | networkError => simp
  | invalidJson => simp
  | ok body => cases body with
    | mk data => cases data <;> simp

/-- C1: when `fetchMangaDetails` yields nothing, `fetchData` only records the base request:
no setter runs, no further request is sent, the library slot is not touched and nothing is
raised.  On a freshly mounted screen the state therefore stays the initial one: the component
renders its loading screen, cover, creator and saved flag are unset, the feed is the initial
empty array, and `mangaData` (hence `addToLibrary`) cannot build an entry. -/
theorem fetchData_without_base_item (remote : Remote) (paramsDetails : String) (w : World)
    (library : Slot) (pf : String → JSNum)
    (h : fetchMangaDetails remote paramsDetails = none) :
    (fetchData remote paramsDetails w).raised = none ∧
    (fetchData remote paramsDetails w).world.screen = w.screen ∧
    (fetchData remote paramsDetails w).world.library = w.library ∧
    (fetchData remote paramsDetails w).world.requests =
      w.requests ++ [Request.manga paramsDetails] ∧
    (fetchData remote paramsDetails (World.mount library)).world =
      { screen := Screen.initial, library := library,
        requests := [Request.manga paramsDetails] } ∧
    Screen.initial.mangaDetails = none ∧
    Screen.initial.coverImageUrl = none ∧
    Screen.initial.authorNames = none ∧
    Screen.initial.chapters = some [] ∧
    Screen.initial.isAdded = false ∧
    render pf (fetchData remote paramsDetails (World.mount library)).world.screen =
      .ok .loading ∧
    mangaData (fetchData remote paramsDetails (World.mount library)).world.screen =
      .error .typeError ∧
    (addToLibrary (fetchData remote paramsDetails (World.mount library)).world).world.library =
      library := by
  have hw : ∀ w : World, fetchData remote paramsDetails w =
      { world := w.fetch (.manga paramsDetails), raised := none } := by
    intro w
    simp [fetchData, h]
  simp [hw, World.fetch, World.mount, Screen.initial, render, mangaData, addToLibrary]

/-- Instance of C1: the unreachable remote service, first load of `abc` over an empty slot. -/
theorem fetchData_without_base_item_witness :
    fetchMangaDetails offlineRemote "abc" = none ∧
    (fetchData offlineRemote "abc" (World.mount .absent)).world =
      { screen := Screen.initial, library := .absent, requests := [Request.manga "abc"] } ∧
    render parseFloat (fetchData offlineRemote "abc" (World.mount .absent)).world.screen =
      .ok .loading :=
  have h := fetchData_without_base_item offlineRemote "abc" (World.mount .absent) .absent
    parseFloat rfl
  ⟨rfl, h.2.2.2.2.1, h.2.2.2.2.2.2.2.2.2.2.1⟩


/-! ## Adding to and removing from the library -/

theorem librarySome_eq_true_iff (library : List LibraryEntry) (id : String) :
    librarySome library id = true ↔ id ∈ library.map (fun item => item.id) := by
  unfold librarySome
  rw [List.any_eq_true]
  constructor
  · rintro ⟨item, hmem, hid⟩
    exact List.mem_map.2 ⟨item, hmem, by simpa using hid⟩
  · intro h
    obtain ⟨item, hmem, hid⟩ := List.mem_map.1 h
    exact ⟨item, hmem, by simpa using hid⟩

theorem librarySome_eq_false_iff (library : List LibraryEntry) (id : String) :
    librarySome library id = false ↔ id ∉ library.map (fun item => item.id) := by
  rw [← librarySome_eq_true_iff]; simp

/-- C3: on a loaded screen over a persisted library `L`, `addToLibrary` raises nothing and
persists `L` followed by one new entry; that entry carries the id of the loaded item (with
its English title, the current cover URL and the feed length); the saved flag is set; and
the membership test for the item id on the new slot returns `true`. -/
theorem addToLibrary_appends (w : World) (d : MangaDetails) (chapters : List FeedEntry)
    (L : List LibraryEntry)
    (hd : w.screen.mangaDetails = some d) (hc : w.screen.chapters = some chapters)
    (hL : w.library = .entries L) :
    (addToLibrary w).raised = none ∧
    mangaData w.screen =
      .ok { id := d.id, title := d.attributes.title.bind (fun t => t.en),
            coverImageUrl := w.screen.coverImageUrl, chapterCount := chapters.length } ∧
    (∀ entry : LibraryEntry, mangaData w.screen = .ok entry →
      (addToLibrary w).world.library = .entries (L ++ [entry])) ∧
    (∃ entry : LibraryEntry, entry.id = d.id ∧
      (addToLibrary w).world.library.contents = L ++ [entry]) ∧
    (addToLibrary w).world.screen.isAdded = true ∧
    isMangaInLibrary (addToLibrary w).world.library d.id = .ok true := by
  have hdata : mangaData w.screen =
      .ok { id := d.id, title := d.attributes.title.bind (fun t => t.en),
            coverImageUrl := w.screen.coverImageUrl, chapterCount := chapters.length } := by
    simp [mangaData, hd, hc]
  have hadd : ∀ entry : LibraryEntry, mangaData w.screen = .ok entry →
      addToLibrary w =
        { world := World.setIsAdded { w with library := .entries (L ++ [entry]) } true,
          raised := none } := by
    intro entry hentry
    simp [addToLibrary, hentry, hL, readLibrary]
  rw [hadd _ hdata]
  refine ⟨rfl, hdata, ?_, ⟨_, rfl, rfl⟩, rfl, ?_⟩
  · intro entry hentry
    rw [hdata] at hentry
    cases hentry
    rfl
  · simp [World.setIsAdded, isMangaInLibrary, readLibrary, librarySome]

/-- Instance of C3: after loading `abc`, adding it to a library that holds `xyz`. -/
theorem addToLibrary_appends_witness :
    (addToLibrary
        (fetchData exampleRemote "abc" (World.mount (.entries [entryXyz]))).world).world.library =
      .entries [entryXyz, entryAbc] ∧
    isMangaInLibrary
      (addToLibrary
        (fetchData exampleRemote "abc" (World.mount (.entries [entryXyz]))).world).world.library
      "abc" = .ok true :=
  have h := addToLibrary_appends
    (fetchData exampleRemote "abc" (World.mount (.entries [entryXyz]))).world
    detailsAbc exampleFeed [entryXyz] (by decide) (by decide) (by decide)
  ⟨h.2.2.1 entryAbc rfl, h.2.2.2.2.2⟩

/-- C4: on a loaded screen over a persisted library `L`, `removeFromLibrary` raises nothing
and persists exactly the entries of `L` whose id differs from the item id, in their order:
the result is a sublist of `L`, it holds an entry if and only if `L` holds it and its id
differs; the saved flag is cleared; the membership test for the item id on the new slot
returns `false`; and when `L` holds no entry with that id the slot still holds `L`. -/
theorem removeFromLibrary_filters (w : World) (d : MangaDetails) (L : List LibraryEntry)
    (hd : w.screen.mangaDetails = some d) (hL : w.library = .entries L) :
    (removeFromLibrary w).raised = none ∧
    (removeFromLibrary w).world.library =
      .entries (L.filter (fun item => decide (item.id ≠ d.id))) ∧
    (removeFromLibrary w).world.library.contents.Sublist L ∧
    (∀ item : LibraryEntry,
      item ∈ (removeFromLibrary w).world.library.contents ↔ item ∈ L ∧ item.id ≠ d.id) ∧
    (removeFromLibrary w).world.screen.isAdded = false ∧
    isMangaInLibrary (removeFromLibrary w).world.library d.id = .ok false ∧
    (librarySome L d.id = false → (removeFromLibrary w).world.library = .entries L) := by
  have hfilter : (fun item : LibraryEntry => item.id != d.id) =
      (fun item => decide (item.id ≠ d.id)) := by
    funext item
    by_cases h : item.id = d.id <;> simp [h]
  have hrem : removeFromLibrary w =
      { world := World.setIsAdded
          { w with library := .entries (L.filter (fun item => decide (item.id ≠ d.id))) }
          false,
        raised := none } := by
    simp [removeFromLibrary, hd, hL, readLibrary, hfilter]
  rw [hrem]
  refine ⟨rfl, rfl, ?_, ?_, rfl, ?_, ?_⟩
  · exact List.filter_sublist L
  · intro item
    simp [World.setIsAdded, Slot.contents]
  · simp [World.setIsAdded, isMangaInLibrary, readLibrary, librarySome]
  · intro hnot
    simp only [World.setIsAdded]
    congr 1
    rw [List.filter_eq_self]
    intro item hitem
    rw [librarySome_eq_false_iff] at hnot
    simp only [decide_eq_true_eq]
    intro heq
    exact hnot (heq ▸ List.mem_map_of_mem (fun item => item.id) hitem)

/-- Instance of C4: after loading `abc` over a library that holds `xyz`, `abc`, `xyz`,
removing `abc` leaves the two `xyz` entries. -/
theorem removeFromLibrary_filters_witness :
    (removeFromLibrary
        (fetchData exampleRemote "abc"
          (World.mount (.entries [entryXyz, entryAbc, entryXyz]))).world).world.library =
      .entries [entryXyz, entryXyz] ∧
    isMangaInLibrary
      (removeFromLibrary
        (fetchData exampleRemote "abc"
          (World.mount (.entries [entryXyz, entryAbc, entryXyz]))).world).world.library
      "abc" = .ok false :=
  have h := removeFromLibrary_filters
    (fetchData exampleRemote "abc"
      (World.mount (.entries [entryXyz, entryAbc, entryXyz]))).world
    detailsAbc [entryXyz, entryAbc, entryXyz] (by decide) (by decide)
  ⟨h.2.1, h.2.2.2.2.2.1⟩


/-! ## What a load writes -/

theorem loadCover_library (remote : Remote) (p : String) (c : Option String) (w : World) :
    (loadCover remote p c w).library = w.library := by
  unfold loadCover receiveCover
  repeat' split
  all_goals rfl

theorem loadCover_mangaDetails (remote : Remote) (p : String) (c : Option String) (w : World) :
    (loadCover remote p c w).screen.mangaDetails = w.screen.mangaDetails := by
  unfold loadCover receiveCover
  repeat' split
  all_goals rfl

theorem loadCover_authorNames (remote : Remote) (p : String) (c : Option String) (w : World) :
    (loadCover remote p c w).screen.authorNames = w.screen.authorNames := by
  unfold loadCover receiveCover
  repeat' split
  all_goals rfl

theorem loadCover_isAdded (remote : Remote) (p : String) (c : Option String) (w : World) :
    (loadCover remote p c w).screen.isAdded = w.screen.isAdded := by
  unfold loadCover receiveCover
  repeat' split
  all_goals rfl

/-- The cover step either leaves the cover URL as it was or writes a URL composed from the
route parameter of this load. -/
theorem loadCover_coverImageUrl (remote : Remote) (p : String) (c : Option String) (w : World) :
    (loadCover remote p c w).screen.coverImageUrl = w.screen.coverImageUrl ∨
    ∃ fileName : String, fileName ≠ "" ∧
      (loadCover remote p c w).screen.coverImageUrl = some (coverUrl p fileName) := by
  unfold loadCover receiveCover
  repeat' split
  all_goals first
    | exact Or.inl rfl
    | exact Or.inr ⟨_, by assumption, rfl⟩

theorem loadCover_of_fileName (remote : Remote) (p cid f : String) (w : World)
    (hcid : cid ≠ "") (hf : f ≠ "")
    (hresp : remote.cover cid =
      .ok { data := some { attributes := some { fileName := some f } } }) :
    (loadCover remote p (some cid) w).screen.coverImageUrl = some (coverUrl p f) := by
  simp [loadCover, receiveCover, hcid, hf, hresp, World.setCoverImageUrl]

theorem loadCover_unchanged (remote : Remote) (p : String) (c : Option String) (w : World)
    (h : ∀ cid, c = some cid → cid = "" ∨ ∀ f : String, f ≠ "" → remote.cover cid ≠
      .ok { data := some { attributes := some { fileName := some f } } }) :
    (loadCover remote p c w).screen.coverImageUrl = w.screen.coverImageUrl := by
  cases c with
  | none => rfl
  | some cid =>
    by_cases hcid : cid = ""
    · simp [loadCover, receiveCover, hcid]
    · rcases h cid rfl with h0 | hno
      · exact absurd h0 hcid
      · cases hresp : remote.cover cid with
        | networkError => simp [loadCover, receiveCover, hcid, hresp, World.fetch]
        | invalidJson => simp [loadCover, receiveCover, hcid, hresp, World.fetch]
        | ok body =>
          obtain ⟨data⟩ := body
          cases data with
          | none => simp [loadCover, receiveCover, hcid, hresp, World.fetch]
          | some data =>
            obtain ⟨attributes⟩ := data
            cases attributes with
            | none => simp [loadCover, receiveCover, hcid, hresp, World.fetch]
            | some attributes =>
              obtain ⟨fileName⟩ := attributes
              cases fileName with
              | none => simp [loadCover, receiveCover, hcid, hresp, World.fetch]
              | some f =>
                by_cases hf : f = ""
                · simp [loadCover, receiveCover, hcid, hresp, hf, World.fetch]
                · exact absurd hresp (hno f hf)


/-- A library that reads without error reads as the entries the slot holds. -/
theorem readLibrary_eq_ok_contents {slot : Slot} {L : List LibraryEntry}
    (h : readLibrary slot = .ok L) : L = slot.contents := by
  cases slot <;> simp_all [readLibrary, Slot.contents]

/-- What a load that finds the item leaves behind, cell by cell. -/
theorem fetchData_of_details (remote : Remote) (p : String) (w : World) (d : MangaDetails)
    (h : fetchMangaDetails remote p = some d) :
    (fetchData remote p w).world.library = w.library ∧
    (fetchData remote p w).world.screen.mangaDetails = some d ∧
    (fetchData remote p w).world.screen.coverImageUrl =
      (loadCover remote p
        ((d.relationships.find? (fun r => r.type == "cover_art")).map (fun r => r.id))
        ((w.fetch (.manga p)).setMangaDetails (some d))).screen.coverImageUrl ∧
    (fetchData remote p w).world.screen.authorNames =
      (match d.relationships.filter (fun r => r.type == "author") with
       | a :: _ => fetchAuthorDetails remote a.id
       | [] => w.screen.authorNames) ∧
    (fetchData remote p w).world.screen.chapters = fetchChapters remote p ∧
    (fetchData remote p w).world.screen.isAdded =
      (match readLibrary w.library with
       | .ok L => librarySome L d.id
       | .error _ => w.screen.isAdded) ∧
    (fetchData remote p w).raised =
      (match readLibrary w.library with
       | .ok _ => none
       | .error e => some e) := by
  have hlib := loadCover_library remote p
    ((d.relationships.find? (fun r => r.type == "cover_art")).map (fun r => r.id))
    ((w.fetch (.manga p)).setMangaDetails (some d))
  have hmd := loadCover_mangaDetails remote p
    ((d.relationships.find? (fun r => r.type == "cover_art")).map (fun r => r.id))
    ((w.fetch (.manga p)).setMangaDetails (some d))
  have han := loadCover_authorNames remote p
    ((d.relationships.find? (fun r => r.type == "cover_art")).map (fun r => r.id))
    ((w.fetch (.manga p)).setMangaDetails (some d))
  have hia := loadCover_isAdded remote p
    ((d.relationships.find? (fun r => r.type == "cover_art")).map (fun r => r.id))
    ((w.fetch (.manga p)).setMangaDetails (some d))
  simp only [World.fetch, World.setMangaDetails] at hlib hmd han hia
  simp only [fetchData, h, isMangaInLibrary]
  cases hauth : d.relationships.filter (fun r => r.type == "author") with
  | nil =>
    cases hread : readLibrary w.library with
    | ok L =>
      simp [World.fetch, World.setMangaDetails, World.setChapters, World.setIsAdded,
        hlib, hmd, han, hread]
    | error e =>
      simp [World.fetch, World.setMangaDetails, World.setChapters, World.setIsAdded,
        hlib, hmd, han, hia, hread]
  | cons a rest =>
    cases hread : readLibrary w.library with
    | ok L =>
      simp [World.fetch, World.setMangaDetails, World.setChapters, World.setIsAdded,
        World.setAuthorNames, hlib, hmd, han, hread]
    | error e =>
      simp [World.fetch, World.setMangaDetails, World.setChapters, World.setIsAdded,
        World.setAuthorNames, hlib, hmd, han, hia, hread]


/-! ## Cover and creator -/

/-- The claim C9 fails as stated: `def` has a `cover_art` relationship whose lookup is
rejected, yet after the load of `def` on the screen that showed `abc` the cover field is not
empty, it still holds the URL of `abc`; and when the route `ABC` is answered with the record
whose id is `abc`, the URL is composed from the route parameter, not from the id of the
record. -/
theorem cover_not_empty_after_failed_lookup :
    fetchMangaDetails exampleRemote "def" = some detailsDef ∧
    detailsDef.relationships.find? (fun r => r.type == "cover_art") =
      some { type := "cover_art", id := "cov2" } ∧
    (fetchData exampleRemote "def"
        (fetchData exampleRemote "abc" (World.mount .absent)).world).world.screen.coverImageUrl =
      some "https://uploads.mangadex.org/covers/abc/x.jpg" ∧
    (fetchData exampleRemote "ABC" (World.mount .absent)).world.screen.mangaDetails =
      some detailsAbc ∧
    detailsAbc.id = "abc" ∧
    (fetchData exampleRemote "ABC" (World.mount .absent)).world.screen.coverImageUrl =
      some "https://uploads.mangadex.org/covers/ABC/x.jpg" := by
  decide

/-- C9 as amended: for a load that finds the item, on any screen: when the first `cover_art`
relationship has a non-empty id and the cover lookup for it answers with a non-empty file
name `f`, the cover URL is `https://uploads.mangadex.org/covers/` + the identifier the load
was started with (`params.details`) + `/` + `f`; when there is no `cover_art` relationship,
or the lookup for the first one is not made (empty id) or does not answer with a file name
(rejected request, bad JSON, missing `data`, `attributes` or `fileName`, empty name), the
cover field keeps the value it had before the load, which is empty on a freshly mounted
screen.  Route `abc` with cover `cov1` and file name `x.jpg` gives
`https://uploads.mangadex.org/covers/abc/x.jpg`. -/
theorem fetchData_coverImageUrl (remote : Remote) (paramsDetails : String) (w : World)
    (library : Slot) (d : MangaDetails)
    (h : fetchMangaDetails remote paramsDetails = some d) :
    (∀ (r : Relationship) (f : String),
      d.relationships.find? (fun r => r.type == "cover_art") = some r → r.id ≠ "" →
      remote.cover r.id = .ok { data := some { attributes := some { fileName := some f } } } →
      f ≠ "" →
      (fetchData remote paramsDetails w).world.screen.coverImageUrl =
        some ("https://uploads.mangadex.org/covers/" ++ paramsDetails ++ "/" ++ f)) ∧
    (d.relationships.find? (fun r => r.type == "cover_art") = none →
      (fetchData remote paramsDetails w).world.screen.coverImageUrl =
        w.screen.coverImageUrl) ∧
    (∀ r : Relationship,
      d.relationships.find? (fun r => r.type == "cover_art") = some r →
      (r.id = "" ∨ ∀ f : String, f ≠ "" → remote.cover r.id ≠
        .ok { data := some { attributes := some { fileName := some f } } }) →
      (fetchData remote paramsDetails w).world.screen.coverImageUrl =
        w.screen.coverImageUrl) ∧
    (World.mount library).screen.coverImageUrl = none ∧
    (fetchData exampleRemote "abc" (World.mount library)).world.screen.coverImageUrl =
      some "https://uploads.mangadex.org/covers/abc/x.jpg" := by
  refine ⟨?_, ?_, ?_, rfl, ?_⟩
  · intro r f hr hid hresp hf
    rw [(fetchData_of_details remote paramsDetails w d h).2.2.1, hr]
    exact loadCover_of_fileName remote paramsDetails r.id f _ hid hf hresp
  · intro hnone
    rw [(fetchData_of_details remote paramsDetails _ d h).2.2.1, hnone]
    rfl
  · intro r hr hfail
    rw [(fetchData_of_details remote paramsDetails _ d h).2.2.1, hr]
    rw [loadCover_unchanged]
    · rfl
    · intro cid hcid
      cases hcid
      exact hfail
  · rw [(fetchData_of_details exampleRemote "abc" _ detailsAbc rfl).2.2.1]
    exact loadCover_of_fileName exampleRemote "abc" "cov1" "x.jpg" _ (by decide) (by decide) rfl

/-- Instance of the amended C9: the load of `abc` over a library that holds `xyz`. -/
theorem fetchData_coverImageUrl_witness :
    fetchMangaDetails exampleRemote "abc" = some detailsAbc ∧
    (fetchData exampleRemote "abc"
        (World.mount (.entries [entryXyz]))).world.screen.coverImageUrl =
      some ("https://uploads.mangadex.org/covers/" ++ "abc" ++ "/" ++ "x.jpg") :=
  ⟨rfl,
   (fetchData_coverImageUrl exampleRemote "abc" (World.mount (.entries [entryXyz]))
      .absent detailsAbc rfl).1
     { type := "cover_art", id := "cov1" } "x.jpg" rfl (by decide) rfl (by decide)⟩

theorem creatorLine_ne_empty (s : Screen) : creatorLine s ≠ "" := by
  unfold creatorLine
  split
  · split
    · decide
    · assumption
  · decide

theorem creatorLine_of_fallback {s : Screen}
    (h : s.authorNames = none ∨ s.authorNames = some unknownAuthor) :
    creatorLine s = "Unknown author" := by
  rcases h with h | h <;> simp [creatorLine, h, unknownAuthor]

/-- The claim C8 fails as stated: `xyz` has no `author` relationship, yet after the load of
`xyz` on the screen that showed `abc` the page shows the creator of `abc`, not the
sentinel. -/
theorem creator_of_earlier_item_shown :
    fetchMangaDetails exampleRemote "xyz" = some detailsXyz ∧
    detailsXyz.relationships.filter (fun r => r.type == "author") = [] ∧
    creatorLine
      (fetchData exampleRemote "xyz"
        (fetchData exampleRemote "abc" (World.mount (.entries [entryXyz]))).world).world.screen =
      "A. Writer" := by
  decide

/-- C8 as amended: after a load that finds the item, on any screen, the creator shown by the
page, `authorNames || "Unknown author"`, is never the empty string; it is the name the lookup
for the first `author` relationship answers with, and `Unknown author` whenever that lookup
fails (rejected request, bad JSON, missing `data`, `attributes` or `name`); when the item has
no `author` relationship the load leaves the creator cell as it was, so the page shows what
it showed before the load, which is `Unknown author` on a freshly mounted screen; and the
only exception the load can end with is the one raised by reading the library slot. -/
theorem fetchData_creatorLine (remote : Remote) (paramsDetails : String) (w : World)
    (library : Slot) (d : MangaDetails)
    (h : fetchMangaDetails remote paramsDetails = some d) :
    creatorLine (fetchData remote paramsDetails w).world.screen ≠ "" ∧
    (∀ (a : Relationship) (rest : List Relationship) (name : String),
      d.relationships.filter (fun r => r.type == "author") = a :: rest →
      remote.author a.id = .ok { data := some { attributes := some { name := some name } } } →
      name ≠ "" →
      creatorLine (fetchData remote paramsDetails w).world.screen = name) ∧
    (∀ (a : Relationship) (rest : List Relationship),
      d.relationships.filter (fun r => r.type == "author") = a :: rest →
      (remote.author a.id = .networkError ∨ remote.author a.id = .invalidJson ∨
        remote.author a.id = .ok { data := none } ∨
        remote.author a.id = .ok { data := some { attributes := none } } ∨
        remote.author a.id = .ok { data := some { attributes := some { name := none } } }) →
      creatorLine (fetchData remote paramsDetails w).world.screen = "Unknown author") ∧
    (d.relationships.filter (fun r => r.type == "author") = [] →
      (fetchData remote paramsDetails w).world.screen.authorNames = w.screen.authorNames ∧
      creatorLine (fetchData remote paramsDetails w).world.screen = creatorLine w.screen) ∧
    creatorLine (World.mount library).screen = "Unknown author" ∧
    (∀ e : JSError, (fetchData remote paramsDetails w).raised = some e →
      readLibrary w.library = .error e) ∧
    (∀ L : List LibraryEntry, readLibrary w.library = .ok L →
      (fetchData remote paramsDetails w).raised = none) := by
  refine ⟨creatorLine_ne_empty _, ?_, ?_, ?_, rfl, ?_, ?_⟩
  · intro a rest name hauth hresp hname
    have hn : (fetchData remote paramsDetails w).world.screen.authorNames = some name := by
      rw [(fetchData_of_details remote paramsDetails w d h).2.2.2.1, hauth]
      simp [fetchAuthorDetails, hresp]
    simp [creatorLine, hn, hname]
  · intro a rest hauth hfail
    apply creatorLine_of_fallback
    rw [(fetchData_of_details remote paramsDetails w d h).2.2.2.1, hauth]
    rcases hfail with hf | hf | hf | hf | hf <;> simp [fetchAuthorDetails, hf]
  · intro hnone
    have hn : (fetchData remote paramsDetails w).world.screen.authorNames =
        w.screen.authorNames := by
      rw [(fetchData_of_details remote paramsDetails _ d h).2.2.2.1, hnone]
    exact ⟨hn, by simp only [creatorLine, hn]⟩
  · intro e he
    rw [(fetchData_of_details remote paramsDetails w d h).2.2.2.2.2.2] at he
    cases hread : readLibrary w.library with
    | ok L => simp [hread] at he
    | error e0 =>
      simp [hread] at he
      rw [he]
  · intro L hL
    rw [(fetchData_of_details remote paramsDetails w d h).2.2.2.2.2.2, hL]

/-- Instance of the amended C8: `def` has an author relationship whose lookup is rejected;
loaded on the screen that showed `abc`, the page shows the sentinel. -/
theorem fetchData_creatorLine_witness :
    fetchMangaDetails exampleRemote "def" = some detailsDef ∧
    creatorLine
      (fetchData exampleRemote "def"
        (fetchData exampleRemote "abc" (World.mount .absent)).world).world.screen =
      "Unknown author" :=
  ⟨rfl,
   (fetchData_creatorLine exampleRemote "def"
      (fetchData exampleRemote "abc" (World.mount .absent)).world .absent detailsDef
      rfl).2.2.1 { type := "author", id := "auth2" } [] rfl (Or.inl rfl)⟩

/-! ## A second load on the same screen -/

/-- The claim C10 fails as stated: after a completed load of `abc` (which has a cover and an
author), a load of `xyz` (which has neither relationship) leaves the cover URL and the creator
name of `abc` in the state; the cover URL names `abc`, not `xyz`. -/
theorem second_load_keeps_cover_and_creator :
    detailsXyz.relationships.find? (fun r => r.type == "cover_art") = none ∧
    detailsXyz.relationships.filter (fun r => r.type == "author") = [] ∧
    (fetchData exampleRemote "xyz"
        (fetchData exampleRemote "abc" (World.mount .absent)).world).world.screen.mangaDetails =
      some detailsXyz ∧
    (fetchData exampleRemote "xyz"
        (fetchData exampleRemote "abc" (World.mount .absent)).world).world.screen.coverImageUrl =
      some "https://uploads.mangadex.org/covers/abc/x.jpg" ∧
    (fetchData exampleRemote "xyz"
        (fetchData exampleRemote "abc" (World.mount .absent)).world).world.screen.authorNames =
      some "A. Writer" := by
  decide

/-- C10 as amended: a load of `Y` that finds the item, run on whatever state an earlier load
left, always overwrites the item record, the feed and (when the library slot can be read) the
saved flag with the values derived for `Y`.  The creator name is the one looked up for `Y`
when `Y` has an `author` relationship and is left as it was otherwise.  The cover URL is the
one composed from `Y` and the file name when the cover lookup for the first `cover_art`
relationship of `Y` returns a file name; it is left as it was when `Y` has no `cover_art`
relationship or its cover lookup gives no file name; so it is always either what it was or
a URL composed from `Y`. -/
theorem fetchData_on_used_screen (remote : Remote) (paramsDetails : String) (w : World)
    (d : MangaDetails) (L : List LibraryEntry)
    (h : fetchMangaDetails remote paramsDetails = some d)
    (hL : readLibrary w.library = .ok L) :
    (fetchData remote paramsDetails w).world.screen.mangaDetails = some d ∧
    (fetchData remote paramsDetails w).world.screen.chapters =
      fetchChapters remote paramsDetails ∧
    (fetchData remote paramsDetails w).world.screen.isAdded = librarySome L d.id ∧
    (∀ (a : Relationship) (rest : List Relationship),
      d.relationships.filter (fun r => r.type == "author") = a :: rest →
      (fetchData remote paramsDetails w).world.screen.authorNames =
        fetchAuthorDetails remote a.id) ∧
    (d.relationships.filter (fun r => r.type == "author") = [] →
      (fetchData remote paramsDetails w).world.screen.authorNames = w.screen.authorNames) ∧
    (∀ (r : Relationship) (f : String),
      d.relationships.find? (fun r => r.type == "cover_art") = some r → r.id ≠ "" →
      remote.cover r.id = .ok { data := some { attributes := some { fileName := some f } } } →
      f ≠ "" →
      (fetchData remote paramsDetails w).world.screen.coverImageUrl =
        some ("https://uploads.mangadex.org/covers/" ++ paramsDetails ++ "/" ++ f)) ∧
    (d.relationships.find? (fun r => r.type == "cover_art") = none →
      (fetchData remote paramsDetails w).world.screen.coverImageUrl =
        w.screen.coverImageUrl) ∧
    (∀ r : Relationship,
      d.relationships.find? (fun r => r.type == "cover_art") = some r →
      (r.id = "" ∨ ∀ f : String, f ≠ "" → remote.cover r.id ≠
        .ok { data := some { attributes := some { fileName := some f } } }) →
      (fetchData remote paramsDetails w).world.screen.coverImageUrl =
        w.screen.coverImageUrl) ∧
    ((fetchData remote paramsDetails w).world.screen.coverImageUrl = w.screen.coverImageUrl ∨
      ∃ f : String, f ≠ "" ∧
        (fetchData remote paramsDetails w).world.screen.coverImageUrl =
          some ("https://uploads.mangadex.org/covers/" ++ paramsDetails ++ "/" ++ f)) := by
  have hall := fetchData_of_details remote paramsDetails w d h
  refine ⟨hall.2.1, hall.2.2.2.2.1, ?_, ?_, ?_, ?_, ?_, ?_, ?_⟩
  · rw [hall.2.2.2.2.2.1, hL]
  · intro a rest hauth
    rw [hall.2.2.2.1, hauth]
  · intro hauth
    rw [hall.2.2.2.1, hauth]
  · intro r f hr hid hresp hf
    rw [hall.2.2.1, hr]
    exact loadCover_of_fileName remote paramsDetails r.id f _ hid hf hresp
  · intro hnone
    rw [hall.2.2.1, hnone]
    rfl
  · intro r hr hfail
    rw [hall.2.2.1, hr, loadCover_unchanged]
    · rfl
    · intro cid hcid
      cases hcid
      exact hfail
  · rw [hall.2.2.1]
    exact loadCover_coverImageUrl remote paramsDetails _ _

/-- Instance of the amended C10: `abc` loaded on the screen that showed `xyz`; the cover URL
is the one composed from `abc` and `x.jpg`. -/
theorem fetchData_on_used_screen_witness :
    fetchMangaDetails exampleRemote "abc" = some detailsAbc ∧
    readLibrary (fetchData exampleRemote "xyz" (World.mount .absent)).world.library = .ok [] ∧
    (fetchData exampleRemote "abc"
        (fetchData exampleRemote "xyz" (World.mount .absent)).world).world.screen.coverImageUrl =
      some ("https://uploads.mangadex.org/covers/" ++ "abc" ++ "/" ++ "x.jpg") :=
  ⟨rfl, rfl,
   (fetchData_on_used_screen exampleRemote "abc"
      (fetchData exampleRemote "xyz" (World.mount .absent)).world detailsAbc [] rfl
      rfl).2.2.2.2.2.1
     { type := "cover_art", id := "cov1" } "x.jpg" rfl (by decide) rfl (by decide)⟩

/-! ## A library slot that does not hold an array of entries -/

/-- The claim C7 fails as stated: over a slot whose text is not JSON, the load of `abc` ends
with a `SyntaxError` at the membership test and leaves the saved flag untouched, and on the
screen it leaves, `addToLibrary` and `removeFromLibrary` end with a `SyntaxError` too; over
a slot that holds a JSON value that is truthy but no array, all three end with a
`TypeError`. -/
theorem malformed_library_raises :
    fetchData exampleRemote "abc" (World.mount .unparsable) =
      { world :=
          { screen :=
              { mangaDetails := some detailsAbc,
                coverImageUrl := some "https://uploads.mangadex.org/covers/abc/x.jpg",
                authorNames := some "A. Writer",
                chapters := some exampleFeed,
                isAdded := false },
            library := .unparsable,
            requests := [.manga "abc", .cover "cov1", .author "auth1", .feed "abc"] },
        raised := some .syntaxError } ∧
    (addToLibrary (fetchData exampleRemote "abc" (World.mount .unparsable)).world).raised =
      some .syntaxError ∧
    (removeFromLibrary (fetchData exampleRemote "abc" (World.mount .unparsable)).world).raised =
      some .syntaxError ∧
    (fetchData exampleRemote "abc" (World.mount .notArray)).raised = some .typeError ∧
    (addToLibrary (fetchData exampleRemote "abc" (World.mount .notArray)).world).raised =
      some .typeError ∧
    (removeFromLibrary (fetchData exampleRemote "abc" (World.mount .notArray)).world).raised =
      some .typeError := by
  decide

/-- C7 as amended: when the slot is absent or holds a falsy JSON value, each of the three
operations that read the library takes it to be empty and raises nothing: the load clears
the saved flag, `addToLibrary` persists the one new entry, `removeFromLibrary` persists the
empty array.  When the slot holds text that is not JSON, or a truthy JSON value that is not
an array, each of the three raises (`SyntaxError`, respectively `TypeError`), writes nothing
to the slot and leaves the saved flag as it was. -/
theorem library_read_by_slot (remote : Remote) (paramsDetails : String) (w : World)
    (d : MangaDetails) (entry : LibraryEntry)
    (h : fetchMangaDetails remote paramsDetails = some d)
    (hentry : mangaData w.screen = .ok entry) :
    ((w.library = .absent ∨ w.library = .falsy) →
      isMangaInLibrary w.library d.id = .ok false ∧
      (fetchData remote paramsDetails w).raised = none ∧
      (fetchData remote paramsDetails w).world.screen.isAdded = false ∧
      (addToLibrary w).raised = none ∧
      (addToLibrary w).world.library = .entries [entry] ∧
      (removeFromLibrary w).raised = none ∧
      (removeFromLibrary w).world.library = .entries []) ∧
    (∀ e : JSError,
      (w.library = .unparsable ∧ e = .syntaxError) ∨
        (w.library = .notArray ∧ e = .typeError) →
      isMangaInLibrary w.library d.id = .error e ∧
      (fetchData remote paramsDetails w).raised = some e ∧
      (fetchData remote paramsDetails w).world.library = w.library ∧
      (fetchData remote paramsDetails w).world.screen.isAdded = w.screen.isAdded ∧
      addToLibrary w = { world := w, raised := some e } ∧
      removeFromLibrary w = { world := w, raised := some e }) := by
  have hall := fetchData_of_details remote paramsDetails w d h
  constructor
  · intro hslot
    have hread : readLibrary w.library = .ok [] := by
      rcases hslot with hs | hs <;> rw [hs] <;> rfl
    refine ⟨?_, ?_, ?_, ?_, ?_, ?_, ?_⟩
    · simp [isMangaInLibrary, hread, librarySome]
    · rw [hall.2.2.2.2.2.2, hread]
    · rw [hall.2.2.2.2.2.1, hread]; rfl
    · simp [addToLibrary, hentry, hread]
    · simp [addToLibrary, hentry, hread, World.setIsAdded]
    · simp only [removeFromLibrary, hread]
      cases w.screen.mangaDetails <;> rfl
    · simp only [removeFromLibrary, hread]
      cases w.screen.mangaDetails <;> rfl
  · intro e hslot
    have hread : readLibrary w.library = .error e := by
      rcases hslot with ⟨hs, he⟩ | ⟨hs, he⟩ <;> rw [hs, he] <;> rfl
    refine ⟨?_, ?_, hall.1, ?_, ?_, ?_⟩
    · simp [isMangaInLibrary, hread]
    · rw [hall.2.2.2.2.2.2, hread]
    · rw [hall.2.2.2.2.2.1, hread]
    · simp [addToLibrary, hentry, hread]
    · simp [removeFromLibrary, hread]

/-- Instance of the amended C7: `abc` shown over an absent slot, then saved. -/
theorem library_read_by_slot_witness :
    fetchMangaDetails exampleRemote "abc" = some detailsAbc ∧
    mangaData (fetchData exampleRemote "abc" (World.mount .absent)).world.screen =
      .ok entryAbc ∧
    (addToLibrary (fetchData exampleRemote "abc" (World.mount .absent)).world).world.library =
      .entries [entryAbc] :=
  have h := library_read_by_slot exampleRemote "abc"
    (fetchData exampleRemote "abc" (World.mount .absent)).world detailsAbc entryAbc rfl rfl
  ⟨rfl, rfl, (h.1 (Or.inl rfl)).2.2.2.2.1⟩


/-! ## No duplicate ids in the library -/

theorem libraryInvariant_mount (library : Slot)
    (h : (library.contents.map (fun item => item.id)).Nodup) :
    LibraryInvariant (World.mount library) :=
  ⟨h, fun _ _ hd => by simp [World.mount, Screen.initial] at hd⟩

theorem libraryInvariant_fetchData (remote : Remote) (p : String) (w : World)
    (hinv : LibraryInvariant w) : LibraryInvariant (fetchData remote p w).world := by
  cases h : fetchMangaDetails remote p with
  | none =>
    have hw : fetchData remote p w = { world := w.fetch (.manga p), raised := none } := by
      simp [fetchData, h]
    rw [hw]
    exact hinv
  | some d =>
    have hall := fetchData_of_details remote p w d h
    refine ⟨by rw [hall.1]; exact hinv.1, ?_⟩
    intro d0 L hd0 hadded hread
    rw [hall.1] at hread
    rw [hall.2.1] at hd0
    cases hd0
    rw [hall.2.2.2.2.2.1, hread] at hadded
    exact hadded

theorem libraryInvariant_addToLibrary (w : World) (hinv : LibraryInvariant w)
    (hadded : w.screen.isAdded = false) : LibraryInvariant (addToLibrary w).world := by
  unfold addToLibrary
  cases hentry : mangaData w.screen with
  | error e => exact hinv
  | ok entry =>
    cases hread : readLibrary w.library with
    | error e => exact hinv
    | ok L =>
      have hid : ∃ d, w.screen.mangaDetails = some d ∧ entry.id = d.id := by
        unfold mangaData at hentry
        cases hd : w.screen.mangaDetails with
        | none => simp [hd] at hentry
        | some d =>
          cases hc : w.screen.chapters with
          | none => simp [hd, hc] at hentry
          | some chapters =>
            simp [hd, hc] at hentry
            exact ⟨d, rfl, by rw [← hentry]⟩
      obtain ⟨d, hd, hdid⟩ := hid
      have hnot := (librarySome_eq_false_iff L d.id).1 (hinv.2 d L hd hadded hread)
      have hL := readLibrary_eq_ok_contents hread
      refine ⟨?_, ?_⟩
      · show ((L ++ [entry]).map (fun item => item.id)).Nodup
        rw [List.map_append, List.nodup_append]
        refine ⟨by rw [hL]; exact hinv.1, by simp, ?_⟩
        intro a ha hb
        simp at hb
        rw [hb, hdid] at ha
        exact hnot ha
      · intro d0 L0 _ h0 _
        simp [World.setIsAdded] at h0

theorem libraryInvariant_removeFromLibrary (w : World) (hinv : LibraryInvariant w) :
    LibraryInvariant (removeFromLibrary w).world := by
  unfold removeFromLibrary
  cases hread : readLibrary w.library with
  | error e => exact hinv
  | ok L =>
    have hL := readLibrary_eq_ok_contents hread
    cases hd : w.screen.mangaDetails with
    | none =>
      cases L with
      | nil =>
        refine ⟨by simp [World.setIsAdded, Slot.contents], ?_⟩
        intro d0 L0 hd0 _ _
        simp [World.setIsAdded, hd] at hd0
      | cons a rest => exact hinv
    | some d =>
      refine ⟨?_, ?_⟩
      · show ((L.filter (fun item => item.id != d.id)).map (fun item => item.id)).Nodup
        have hnd : (L.map (fun item => item.id)).Nodup := by rw [hL]; exact hinv.1
        exact hnd.sublist ((List.filter_sublist L).map _)
      · intro d0 L0 hd0 _ hread0
        simp only [World.setIsAdded, hd] at hd0
        cases hd0
        simp only [World.setIsAdded, readLibrary] at hread0
        cases hread0
        rw [librarySome_eq_false_iff]
        simp

theorem libraryInvariant_step (w : World) (e : Event) (hinv : LibraryInvariant w) :
    LibraryInvariant (step w e) := by
  have hdispatch : LibraryInvariant (onClick w).world := by
    unfold onClick
    cases hadded : w.screen.isAdded with
    | true => simpa using libraryInvariant_removeFromLibrary w hinv
    | false => simpa using libraryInvariant_addToLibrary w hinv hadded
  cases e with
  | load remote p => exact libraryInvariant_fetchData remote p w hinv
  | click =>
    show LibraryInvariant (clickSave w).world
    unfold clickSave
    split
    · split
      · exact hinv
      · exact hdispatch
    · exact hinv
  | dispatch => exact hdispatch
  | remount =>
    exact ⟨hinv.1, fun _ _ hd => by simp [step, Screen.initial] at hd⟩

theorem libraryInvariant_run (events : List Event) (w : World) (hinv : LibraryInvariant w) :
    LibraryInvariant (run w events) := by
  induction events generalizing w with
  | nil => exact hinv
  | cons e rest ih => exact ih (step w e) (libraryInvariant_step w e hinv)

theorem receiveCover_library (remote : Remote) (p cid : String) (w : World) :
    (receiveCover remote p cid w).library = w.library := by
  unfold receiveCover
  repeat' split
  all_goals rfl

/-- A load that nothing interrupts: on a page with no run in flight, the ticks of one load
leave the world that `fetchData` leaves, and no run in flight. -/
theorem ticks_loadTicks (remote : Remote) (p : String) (w : World) :
    ticks { world := w, inFlight := [] } (loadTicks remote p) =
      { world := (fetchData remote p w).world, inFlight := [] } := by
  cases h : fetchMangaDetails remote p with
  | none =>
    simp [ticks, loadTicks, tick, fetchDataStart, resume, fetchData, h]
  | some d =>
    cases hauth : d.relationships.filter (fun r => r.type == "author") with
    | nil =>
      cases hcov : (d.relationships.find? (fun r => r.type == "cover_art")).map
          (fun r => r.id) with
      | none =>
        cases hmem : isMangaInLibrary w.library d.id <;>
          simp [ticks, loadTicks, tick, fetchDataStart, resume, fetchData, h, hauth, hcov,
            hmem, toAuthor, toChapters, loadCover, World.fetch, World.setMangaDetails,
            World.setChapters, World.setIsAdded, World.setAuthorNames, receiveCover_library]
      | some cid =>
        by_cases hcid : cid = ""
        · cases hmem : isMangaInLibrary w.library d.id <;>
            simp [ticks, loadTicks, tick, fetchDataStart, resume, fetchData, h, hauth, hcov,
              hmem, hcid, toAuthor, toChapters, loadCover, World.fetch, World.setMangaDetails,
              World.setChapters, World.setIsAdded, World.setAuthorNames, receiveCover_library]
        · cases hmem : isMangaInLibrary w.library d.id <;>
            simp [ticks, loadTicks, tick, fetchDataStart, resume, fetchData, h, hauth, hcov,
              hmem, hcid, toAuthor, toChapters, loadCover, World.fetch, World.setMangaDetails,
              World.setChapters, World.setIsAdded, World.setAuthorNames, receiveCover_library]
    | cons a rest =>
      cases hcov : (d.relationships.find? (fun r => r.type == "cover_art")).map
          (fun r => r.id) with
      | none =>
        cases hmem : isMangaInLibrary w.library d.id <;>
          simp [ticks, loadTicks, tick, fetchDataStart, resume, fetchData, h, hauth, hcov,
            hmem, toAuthor, toChapters, loadCover, World.fetch, World.setMangaDetails,
            World.setChapters, World.setIsAdded, World.setAuthorNames, receiveCover_library]
      | some cid =>
        by_cases hcid : cid = ""
        · cases hmem : isMangaInLibrary w.library d.id <;>
            simp [ticks, loadTicks, tick, fetchDataStart, resume, fetchData, h, hauth, hcov,
              hmem, hcid, toAuthor, toChapters, loadCover, World.fetch, World.setMangaDetails,
              World.setChapters, World.setIsAdded, World.setAuthorNames, receiveCover_library]
        · cases hmem : isMangaInLibrary w.library d.id <;>
            simp [ticks, loadTicks, tick, fetchDataStart, resume, fetchData, h, hauth, hcov,
              hmem, hcid, toAuthor, toChapters, loadCover, World.fetch, World.setMangaDetails,
              World.setChapters, World.setIsAdded, World.setAuthorNames, receiveCover_library]

theorem ticks_append (pg : Page) (ts us : List Tick) :
    ticks pg (ts ++ us) = ticks (ticks pg ts) us := by
  simp [ticks, List.foldl_append]

/-- A sequence of events is the sequence of their ticks: every load runs from its start to
its end with no other tick in between. -/
theorem ticks_of_events (events : List Event) (w : World) :
    ticks { world := w, inFlight := [] } (events.flatMap Event.ticks) =
      { world := run w events, inFlight := [] } := by
  induction events generalizing w with
  | nil => rfl
  | cons e rest ih =>
    rw [List.flatMap_cons, ticks_append]
    have hstep : ticks { world := w, inFlight := [] } e.ticks =
        { world := step w e, inFlight := [] } := by
      cases e with
      | load remote p => exact ticks_loadTicks remote p w
      | click => rfl
      | dispatch => rfl
      | remount => rfl
    rw [hstep, ih]
    rfl

/-- The claim C2 fails as stated: on a page mounted over a library that holds `abc` once,
the load of `abc` is started and its base request settles, which sets the item while the
saved flag is still cleared and the cover request is awaited; a click on the save button at
that moment runs `addToLibrary`, and the library holds `abc` twice, also after the load has
run to its end.  Likewise when a load of `xyz` is started while the load of `abc` is in
flight and ends last: the page shows `abc` with the saved flag of `xyz`, no run is in flight,
and a click adds `abc` a second time. -/
theorem click_during_load_adds_duplicate :
    ((Slot.entries [entryAbc]).contents.map (fun item => item.id)).Nodup ∧
    (ticks { world := World.mount (.entries [entryAbc]), inFlight := [] }
        [.activate "abc", .settle exampleRemote 0]).inFlight =
      [.atCover "abc" detailsAbc "cov1"] ∧
    (ticks { world := World.mount (.entries [entryAbc]), inFlight := [] }
        [.activate "abc", .settle exampleRemote 0]).world.screen.isAdded = false ∧
    (ticks { world := World.mount (.entries [entryAbc]), inFlight := [] }
        [.activate "abc", .settle exampleRemote 0, .click]).world.library.contents.map
      (fun item => item.id) = ["abc", "abc"] ∧
    ¬ ((ticks { world := World.mount (.entries [entryAbc]), inFlight := [] }
        [.activate "abc", .settle exampleRemote 0, .click, .settle exampleRemote 0,
         .settle exampleRemote 0, .settle exampleRemote 0]).world.library.contents.map
      (fun item => item.id)).Nodup ∧
    (ticks { world := World.mount (.entries [entryAbc]), inFlight := [] }
        [.activate "abc", .activate "xyz", .settle exampleRemote 1, .settle exampleRemote 0,
         .settle exampleRemote 1, .settle exampleRemote 1, .settle exampleRemote 1,
         .settle exampleRemote 0]).inFlight = [] ∧
    (ticks { world := World.mount (.entries [entryAbc]), inFlight := [] }
        [.activate "abc", .activate "xyz", .settle exampleRemote 1, .settle exampleRemote 0,
         .settle exampleRemote 1, .settle exampleRemote 1, .settle exampleRemote 1,
         .settle exampleRemote 0]).world.screen.mangaDetails = some detailsAbc ∧
    (ticks { world := World.mount (.entries [entryAbc]), inFlight := [] }
        [.activate "abc", .activate "xyz", .settle exampleRemote 1, .settle exampleRemote 0,
         .settle exampleRemote 1, .settle exampleRemote 1, .settle exampleRemote 1,
         .settle exampleRemote 0]).world.screen.isAdded = false ∧
    (ticks { world := World.mount (.entries [entryAbc]), inFlight := [] }
        [.activate "abc", .activate "xyz", .settle exampleRemote 1, .settle exampleRemote 0,
         .settle exampleRemote 1, .settle exampleRemote 1, .settle exampleRemote 1,
         .settle exampleRemote 0, .click]).world.library.contents.map
      (fun item => item.id) = ["abc", "abc"] := by
  decide

/-- C2 as amended: on a screen mounted over a library whose entries have pairwise distinct
ids (an absent slot included), after any sequence of loads, each run from its start to its
end before the next load or action begins (against any remote answers), of clicks on the
save button, of calls of its handler (which runs `addToLibrary` when the saved flag is
cleared and `removeFromLibrary` when it is set) and of remounts of the page, the entries of
the library slot still have pairwise distinct ids. -/
theorem library_ids_nodup (library : Slot) (events : List Event)
    (h : (library.contents.map (fun item => item.id)).Nodup) :
    ((run (World.mount library) events).library.contents.map (fun item => item.id)).Nodup ∧
    ((ticks { world := World.mount library, inFlight := [] }
        (events.flatMap Event.ticks)).world.library.contents.map
      (fun item => item.id)).Nodup := by
  have hrun := (libraryInvariant_run events _ (libraryInvariant_mount library h)).1
  refine ⟨hrun, ?_⟩
  rw [ticks_of_events]
  exact hrun

/-- Instance of the amended C2: over a library that holds `xyz`: load `abc`, click, call the
handler, load `xyz`, click, remount, load `abc` again, click. -/
theorem library_ids_nodup_witness :
    ((Slot.entries [entryXyz]).contents.map (fun item => item.id)).Nodup ∧
    ((run (World.mount (.entries [entryXyz]))
        [.load exampleRemote "abc", .click, .dispatch, .load exampleRemote "xyz", .click,
         .remount, .load exampleRemote "abc", .click]).library.contents.map
      (fun item => item.id)).Nodup :=
  ⟨by decide,
   (library_ids_nodup (.entries [entryXyz])
     [.load exampleRemote "abc", .click, .dispatch, .load exampleRemote "xyz", .click,
      .remount, .load exampleRemote "abc", .click] (by decide)).1⟩

end Akemi
